import Mathlib

/-!
Shallow embedding of `VoiceService` from
`src/lib/services/realtime-api-service.ts`.

The class manages a WebRTC voice session.  Its observable behaviour is
modelled as pure functions from an explicit state (which handles are
currently held) plus an environment describing the outcome of the
platform calls (device acquisition, signaling relay, teardown calls
throwing) to a new state, the list of emitted signals, the list of
outbound data-channel events, and — for the teardown path — the list of
resource-release steps that actually executed.

Platform JSON parsing (`JSON.parse` / `JSON.stringify`) is not part of
the repository; inbound payloads are therefore modelled already tagged
with the outcome of `JSON.parse` on them (success with the decoded
value, or a thrown syntax error), and outbound events are kept
structured (the code would apply `JSON.stringify`, which is injective on
these shapes).
-/

/-- Internal handle state of a `VoiceService` instance: each `Bool` field
records whether the corresponding private field of the class is
non-null (`dataChannelOpen` additionally records
`dataChannel?.readyState === 'open'`), and `isRecording` mirrors the
`isRecording` flag. -/
structure VSState where
  peerConnection : Bool
  dataChannel : Bool
  dataChannelOpen : Bool
  audioElement : Bool
  mediaStream : Bool
  isRecording : Bool
  deriving DecidableEq, Repr

/-- Signals emitted through the `EventEmitter` interface of the class:
`debug` and `error` carry a message string, `recordingStarted` and
`recordingStopped` are bare lifecycle signals. -/
inductive Signal where
  | debug (msg : String)
  | error (msg : String)
  | recordingStarted
  | recordingStopped
  deriving DecidableEq, Repr

/-- Number of occurrences of a signal in an emission trace. -/
def countSignal (t : Signal) : List Signal → Nat
  | [] => 0
  | x :: xs => (if x = t then 1 else 0) + countSignal t xs

/-- Resource-release steps of `stopRecording`, in the order the method
attempts them: close the data channel, stop the media-stream tracks,
close the peer connection, detach and remove the audio element. -/
inductive TeardownStep where
  | channelClose
  | trackStop
  | peerClose
  | sinkDetach
  deriving DecidableEq, Repr

/-- Environment for one `stopRecording` call: for each resource-release
platform call, `some msg` means that call would throw an exception whose
message is `msg`, `none` means it succeeds. -/
structure TeardownFaults where
  channelClose : Option String
  trackStop : Option String
  peerClose : Option String
  sinkDetach : Option String
  deriving DecidableEq, Repr

/-- A fault-free teardown environment. -/
def noFaults : TeardownFaults := ⟨none, none, none, none⟩

/-- The release calls `stopRecording` would issue from state `s`, paired
with their fault from `f`.  A call is only issued when the corresponding
handle is non-null: `dataChannel?.close()`,
`mediaStream?.getTracks().forEach(stop)`, `peerConnection?.close()`, and
the `if (this.audioElement)` guarded sink detach. -/
def teardownCalls (s : VSState) (f : TeardownFaults) :
    List (TeardownStep × Option String) :=
  (if s.dataChannel then [(TeardownStep.channelClose, f.channelClose)] else [])
    ++ (if s.mediaStream then [(TeardownStep.trackStop, f.trackStop)] else [])
    ++ (if s.peerConnection then [(TeardownStep.peerClose, f.peerClose)] else [])
    ++ (if s.audioElement then [(TeardownStep.sinkDetach, f.sinkDetach)] else [])

/-- Runs the release calls of the single `try` block sequentially.
Returns the steps that executed and, if one of them threw, the
exception message; a throw aborts the block, so the remaining calls do
not execute. -/
def runTeardown : List (TeardownStep × Option String) →
    List TeardownStep × Option String
  | [] => ([], none)
  | (st, fault) :: rest =>
    match fault with
    | some m => ([st], some m)
    | none =>
      let r := runTeardown rest
      (st :: r.1, r.2)

/-- State after the `finally` block of `stopRecording`: every handle
null, flag false. -/
def clearedState : VSState := ⟨false, false, false, false, false, false⟩

/-- Model of `VoiceService.stopRecording`.  If `isRecording` is false the
method returns immediately (the `console.log` calls are not observable
signals).  Otherwise it runs the release calls inside one `try` block,
emits an error signal from the `catch` if one of them threw, and the
`finally` block unconditionally resets all handles, clears the flag and
emits `recordingStopped` plus a debug signal.  Result: (new state,
emitted signals in order, release steps that executed). -/
def stopRecording (s : VSState) (f : TeardownFaults) :
    VSState × List Signal × List TeardownStep :=
  if s.isRecording then
    let r := runTeardown (teardownCalls s f)
    let catchSigs : List Signal :=
      match r.2 with
      | some m => [Signal.error ("Error during resource cleanup: " ++ m)]
      | none => []
    (clearedState,
      Signal.debug "Attempting to stop recording and clean up resources..."
        :: catchSigs
        ++ [Signal.recordingStopped,
            Signal.debug "Recording session stopped and state reset."],
      r.1)
  else (s, [], [])

/-- Environment for one `startRecording` call, giving the outcome of
each awaited platform step: `deviceFault` is the rejection message of
`getUserMedia` (`none` = granted), `relayOk` is `response.ok` of the
signaling fetch with `relayStatusText` its status text, and
`remoteDescFault` is the rejection message of `setRemoteDescription`.
`stopFaults` is the teardown environment for the `stopRecording()` call
made from the `catch` block. -/
structure StartEnv where
  deviceFault : Option String
  relayOk : Bool
  relayStatusText : String
  remoteDescFault : Option String
  stopFaults : TeardownFaults
  deriving DecidableEq, Repr

/-- Model of the `catch` block of `startRecording`: emit the wrapped
error signal, then call `stopRecording` on the current state and append
whatever it emits. -/
def startCatch (st : VSState) (sigs : List Signal) (msg : String)
    (f : TeardownFaults) : VSState × List Signal :=
  let r := stopRecording st f
  (r.1, sigs ++ [Signal.error ("Failed to start recording: " ++ msg)] ++ r.2.1)

/-- Model of `VoiceService.startRecording`.  Returns immediately when
already recording.  Otherwise: creates the peer connection and the audio
element, requests the microphone (may reject), adds the track, creates
the data channel, creates and sends the offer to the relay (non-ok
status throws with the status text), applies the answer (may reject),
then sets `isRecording` and emits `recordingStarted`.  Any throw lands
in `startCatch`.  The connection-state-change and ICE debug callbacks
fire asynchronously and are not part of this flow. -/
def startRecording (s : VSState) (env : StartEnv) : VSState × List Signal :=
  if s.isRecording then (s, [])
  else
    let sigs0 := [Signal.debug "Initializing WebRTC connection..."]
    let s2 := { s with peerConnection := true, audioElement := true }
    match env.deviceFault with
    | some m => startCatch s2 sigs0 m env.stopFaults
    | none =>
      let s4 := { s2 with mediaStream := true, dataChannel := true }
      let sigs1 := sigs0 ++ [Signal.debug "Creating WebRTC offer...",
        Signal.debug "Sending offer to OpenAI..."]
      if env.relayOk then
        let sigs2 := sigs1
          ++ [Signal.debug "Received OpenAI answer, establishing connection..."]
        match env.remoteDescFault with
        | some m => startCatch s4 sigs2 m env.stopFaults
        | none =>
          ({ s4 with isRecording := true },
            sigs2 ++ [Signal.recordingStarted,
              Signal.debug "Recording session started successfully"])
      else
        startCatch s4 sigs1
          ("Failed to connect to OpenAI: " ++ env.relayStatusText) env.stopFaults

/-- JavaScript value handed to `_handleFunctionCall` as `params`.  The
handler only reads `params?.input`, so object fields are modelled with
string values (the only shape the tool template reads back); every other
JavaScript value (null, number, boolean, array) behaves the same under
`?.input` and is collapsed into `jother`. -/
inductive JsParams where
  | jundef
  | jstr (s : String)
  | jobj (fields : List (String × String))
  | jother
  deriving DecidableEq, Repr

/-- Is the value a structured (object-shaped) parameter payload. -/
def JsParams.isObj : JsParams → Bool
  | .jobj _ => true
  | _ => false

/-- Model of the JavaScript access `params?.input`: a field lookup on an
object, `undefined` on every other value. -/
def getInput : JsParams → Option String
  | .jobj fields => fields.lookup "input"
  | _ => none

/-- Model of the JavaScript template `You sent: ${x}` where `x` may be
undefined (interpolated as the text "undefined"). -/
def renderInput (x : Option String) : String :=
  "You sent: " ++ x.getD "undefined"

/-- Model of the JavaScript expression `a || b` on string-or-undefined
values: `undefined` and the empty string are falsy. -/
def jsOrStr (a b : Option String) : Option String :=
  match a with
  | some s => if s = "" then b else some s
  | none => b

/-- Model of the raw `data.arguments` field together with the outcome of
`JSON.parse` on it: `jsOk v` means the parse succeeds and yields the
value `v`, `jsBad` means the parse throws a syntax error. -/
inductive ArgsField where
  | jsOk (v : JsParams)
  | jsBad
  deriving DecidableEq, Repr

/-- Model of the optional `data.item` object of an inbound message, with
the fields the handler reads: `type`, `call_id`, `parameters` (which may
be a structured object or a JSON-encoded string) and `name`. -/
structure InItem where
  type : Option String
  call_id : Option String
  parameters : Option JsParams
  name : Option String
  deriving DecidableEq, Repr

/-- Decoded inbound data-channel message (`JSON.parse(event.data)`
succeeded), with the dynamic fields the handler reads.
`responseStatus` models `data.response?.status` and `responseErrMsg`
models `data.response.status_details?.error?.message`. -/
structure InData where
  type : Option String
  item : Option InItem
  name : Option String
  arguments : Option ArgsField
  call_id : Option String
  responseStatus : Option String
  responseErrMsg : Option String
  deriving DecidableEq, Repr

/-- An inbound `event.data` payload tagged with the outcome of the
outer `JSON.parse` on it: either the parse throws (with the exception
message) or it yields a decoded message. -/
inductive ChannelMessage where
  | unparseable (errMsg : String)
  | parsed (d : InData)
  deriving DecidableEq, Repr

/-- Declared tool schema sent in the session configuration. -/
structure ToolDecl where
  type : String
  name : String
  description : String
  propKeys : List String
  required : List String
  deriving DecidableEq, Repr

/-- Value in an outbound tool-result payload: the `success` flag is a
boolean, the tool result and error fields are strings. -/
inductive OVal where
  | obool (b : Bool)
  | ostr (s : String)
  deriving DecidableEq, Repr

/-- Outbound control events written to the data channel (the code
serialises them with `JSON.stringify`, injective on these shapes):
`sessionUpdate` is the `session.update` configuration,
`conversationItemCreate` is the `conversation.item.create` event whose
item is a `function_call_output` with the given `call_id` and output
fields in insertion order, and `responseCreate` is the bare
`response.create` trigger. -/
inductive OutEvent where
  | sessionUpdate (instructions : String) (tools : List ToolDecl)
  | conversationItemCreate (call_id : Option String)
      (output : List (String × OVal))
  | responseCreate
  deriving DecidableEq, Repr

/-- Model of `VoiceService._sendEvent`: writes the event to the data
channel only when its ready state is `'open'`; otherwise the call does
nothing.  The method never mutates the instance state and never emits a
signal, which the result records explicitly. -/
def sendEvent (s : VSState) (e : OutEvent) :
    VSState × List OutEvent × List Signal :=
  (s, if s.dataChannelOpen then [e] else [], [])

/-- The fixed `session.update` payload of `_sendSessionUpdate`. -/
def sessionUpdateEvent : OutEvent :=
  OutEvent.sessionUpdate
    "You are a helpful voice assistant. Please respond to the user."
    [⟨"function", "generic_tool",
      "A generic tool for demonstration. Replace with your own.",
      ["input"], ["input"]⟩]

/-- Model of `VoiceService._sendSessionUpdate` (run from the channel
`onopen` callback). -/
def sendSessionUpdate (s : VSState) : VSState × List OutEvent × List Signal :=
  sendEvent s sessionUpdateEvent

/-- Model of `VoiceService._sendFunctionOutput`: sends the
`conversation.item.create` event carrying the `function_call_output`
item, then immediately sends `response.create`. -/
def sendFunctionOutput (s : VSState) (call_id : Option String)
    (output : List (String × OVal)) : VSState × List OutEvent × List Signal :=
  let r1 := sendEvent s (OutEvent.conversationItemCreate call_id output)
  let r2 := sendEvent r1.1 OutEvent.responseCreate
  (r2.1, r1.2.1 ++ r2.2.1, r1.2.2 ++ r2.2.2)

/-- Result fields produced by the `generic_tool` case of the dispatch
switch: `{ result: "You sent: " + params?.input }`. -/
def genericToolOutput (params : JsParams) : List (String × OVal) :=
  [("result", OVal.ostr (renderInput (getInput params)))]

/-- Tool-result payload computed by `_handleFunctionCall`: the
`switch (name)` with its single `case 'generic_tool'` and `default`
(unknown tool) arm, merged into the flat envelope
`{ success, ...output }` (insertion order: `success` first). -/
def dispatchPayload (name : Option String) (params : JsParams) :
    List (String × OVal) :=
  let so : Bool × List (String × OVal) :=
    if name = some "generic_tool" then (true, genericToolOutput params)
    else (false, [("error", OVal.ostr "Unknown tool")])
  ("success", OVal.obool so.1) :: so.2

/-- Model of `VoiceService._handleFunctionCall`: computes the envelope
for the named tool and sends it with `_sendFunctionOutput`.  `name` and
`call_id` may be undefined at runtime (modelled as `none`); an undefined
name falls into the default arm. -/
def handleFunctionCall (s : VSState) (name : Option String)
    (params : JsParams) (call_id : Option String) :
    VSState × List OutEvent × List Signal :=
  sendFunctionOutput s call_id (dispatchPayload name params)

/-- Name, parameter payload and correlation id extracted from an inbound
tool-invocation message and passed to `_handleFunctionCall`. -/
structure Invocation where
  name : Option String
  params : JsParams
  call_id : Option String
  deriving DecidableEq, Repr

/-- Decoding step of the `onmessage` handler for tool-invocation
messages.  `none`: the message is not recognised as a tool invocation
(neither a just-created `function_call` conversation item nor a
streamed-arguments-finalized event).  `some (.error e)`: it is
recognised, but `JSON.parse(data.arguments)` throws (also when
`data.arguments` is absent).  `some (.ok inv)`: the values dispatched to
`_handleFunctionCall`; on the arguments-finalized path the parameters
are the parse result of `data.arguments`, on the conversation-item path
they are `data.item?.parameters` passed through as-is. -/
def decodeFnCall (d : InData) : Option (Except String Invocation) :=
  if (d.type = some "conversation.item.created"
        ∧ (d.item.bind InItem.type) = some "function_call")
      ∨ d.type = some "response.function_call_arguments.done" then
    let name := jsOrStr (d.item.bind InItem.name) d.name
    let call_id := jsOrStr (d.item.bind InItem.call_id) d.call_id
    if d.type = some "response.function_call_arguments.done" then
      match d.arguments with
      | some (ArgsField.jsOk v) => some (Except.ok ⟨name, v, call_id⟩)
      | some ArgsField.jsBad =>
        some (Except.error "SyntaxError: JSON.parse of data.arguments threw")
      | none =>
        some (Except.error "SyntaxError: JSON.parse of undefined threw")
    else
      some (Except.ok
        ⟨name, (d.item.bind InItem.parameters).getD JsParams.jundef, call_id⟩)
  else none

/-- Error signals produced by the `response.done` failure check at the
end of the `try` block of the `onmessage` handler. -/
def responseFailedSignals (d : InData) : List Signal :=
  if d.type = some "response.done" ∧ d.responseStatus = some "failed" then
    [Signal.error
      ((jsOrStr d.responseErrMsg (some "Response failed")).getD "Response failed")]
  else []

/-- Model of the data-channel `onmessage` handler.  An outer
`JSON.parse` failure is caught and emitted as an error signal.  A
recognised tool invocation whose argument parse throws likewise only
emits the caught error (the throw aborts the `try` block before the
`response.done` check).  A successfully decoded invocation is dispatched
to `_handleFunctionCall`; afterwards — and also for every
non-invocation message — the `response.done` failure check runs.  The
handler never mutates the instance state. -/
def onMessage (s : VSState) (m : ChannelMessage) :
    VSState × List OutEvent × List Signal :=
  match m with
  | ChannelMessage.unparseable e => (s, [], [Signal.error e])
  | ChannelMessage.parsed d =>
    match decodeFnCall d with
    | some (Except.error e) => (s, [], [Signal.error e])
    | some (Except.ok inv) =>
      let r := handleFunctionCall s inv.name inv.params inv.call_id
      (r.1, r.2.1, r.2.2 ++ responseFailedSignals d)
    | none => (s, [], responseFailedSignals d)

/-- A message on which the handler body throws: the outer `JSON.parse`
throws, or the message is a recognised tool invocation whose argument
parse throws. -/
def msgThrows : ChannelMessage → Bool
  | ChannelMessage.unparseable _ => true
  | ChannelMessage.parsed d =>
    match decodeFnCall d with
    | some (Except.error _) => true
    | _ => false

/-- A fully active session state: every handle held, channel open,
recording flag set. -/
def openState : VSState := ⟨true, true, true, true, true, true⟩

/-- Helper: `stopRecording` returns immediately when the recording flag
is not set. -/
theorem stopRecording_noop (s : VSState) (f : TeardownFaults)
    (h : s.isRecording = false) : stopRecording s f = (s, [], []) := by
  unfold stopRecording
  rw [h]
  simp

/-- Helper: after any `stopRecording` call the recording flag is false. -/
theorem stopRecording_flag_false (s : VSState) (f : TeardownFaults) :
    ((stopRecording s f).1).isRecording = false := by
  unfold stopRecording
  cases h : s.isRecording
  · simp [h]
  · simp [clearedState]

/-- Helper: on an open channel, `_handleFunctionCall` sends exactly the
tool-result event followed by `response.create`, touches no state and
emits no signal. -/
theorem handleFunctionCall_open (s : VSState) (n : Option String)
    (p : JsParams) (c : Option String) (h : s.dataChannelOpen = true) :
    handleFunctionCall s n p c =
      (s, [OutEvent.conversationItemCreate c (dispatchPayload n p),
           OutEvent.responseCreate], []) := by
  simp [handleFunctionCall, sendFunctionOutput, sendEvent, h]

/-- C1: the claim says a failed `start()` transitions to `closed` via
full teardown of the acquired resources with handles reset, emits an
error and never emits `recordingStarted`.  On the code, when device
acquisition is denied the `catch` block does call `stopRecording()`,
but `isRecording` is still `false` at that point, so `stopRecording`
returns immediately: the already-created peer connection and playback
sink stay held (the final state is not the cleared state), and no
`recordingStopped` is emitted.  The error signal (containing the denial
reason) and the absence of `recordingStarted` do hold. -/
theorem C1_start_device_denied_skips_teardown :
    startRecording clearedState
        ⟨some "Permission denied", true, "", none, noFaults⟩ =
      (⟨true, false, false, true, false, false⟩,
       [Signal.debug "Initializing WebRTC connection...",
        Signal.error "Failed to start recording: Permission denied"])
    ∧ (startRecording clearedState
        ⟨some "Permission denied", true, "", none, noFaults⟩).1 ≠ clearedState
    ∧ countSignal Signal.recordingStarted
        (startRecording clearedState
          ⟨some "Permission denied", true, "", none, noFaults⟩).2 = 0
    ∧ countSignal Signal.recordingStopped
        (startRecording clearedState
          ⟨some "Permission denied", true, "", none, noFaults⟩).2 = 0 := by
  refine ⟨rfl, by decide, rfl, rfl⟩

/-- C2 counterexample: with every handle held and the data-channel
close call throwing, the channel-close step is the only release step
that executes — stopping the capture tracks, closing the peer
connection and detaching the playback sink are all skipped, refuting
the claim that every remaining teardown step still executes. -/
theorem C2_counterexample_close_throw_skips_rest :
    (stopRecording openState ⟨some "boom", none, none, none⟩).2.2 =
      [TeardownStep.channelClose]
    ∧ TeardownStep.trackStop ∉
        (stopRecording openState ⟨some "boom", none, none, none⟩).2.2
    ∧ TeardownStep.peerClose ∉
        (stopRecording openState ⟨some "boom", none, none, none⟩).2.2
    ∧ TeardownStep.sinkDetach ∉
        (stopRecording openState ⟨some "boom", none, none, none⟩).2.2 := by
  decide

/-- C2 amended: all release calls sit in one `try` block, so when the
first release step (closing the data channel) throws, the remaining
steps are skipped; the `catch` still surfaces an error signal and the
`finally` state reset still completes: every handle is cleared, the
flag is false and `recordingStopped` is emitted. -/
theorem C2_amended_throw_skips_rest_reset_completes (s : VSState)
    (f : TeardownFaults) (m : String) (hrec : s.isRecording = true)
    (hdc : s.dataChannel = true) (hf : f.channelClose = some m) :
    stopRecording s f =
      (clearedState,
       [Signal.debug "Attempting to stop recording and clean up resources...",
        Signal.error ("Error during resource cleanup: " ++ m),
        Signal.recordingStopped,
        Signal.debug "Recording session stopped and state reset."],
       [TeardownStep.channelClose]) := by
  unfold stopRecording teardownCalls
  rw [hrec, hdc, hf]
  simp [runTeardown]

/-- C2 amended witness: the amended statement at a concrete active
state with a throwing channel close. -/
theorem C2_amended_witness :
    openState.isRecording = true ∧ openState.dataChannel = true
    ∧ stopRecording openState ⟨some "w2", none, none, none⟩ =
      (clearedState,
       [Signal.debug "Attempting to stop recording and clean up resources...",
        Signal.error "Error during resource cleanup: w2",
        Signal.recordingStopped,
        Signal.debug "Recording session stopped and state reset."],
       [TeardownStep.channelClose]) :=
  ⟨rfl, rfl,
    C2_amended_throw_skips_rest_reset_completes openState
      ⟨some "w2", none, none, none⟩ "w2" rfl rfl rfl⟩

/-- C5: for every `stop()` while recording, whatever faults the
individual release calls raise, the `finally` block clears every
handle (data channel, media stream, peer connection, audio element),
the recording flag ends false, and exactly one `recordingStopped`
signal is emitted. -/
theorem C5_stop_active_resets_and_signals_once (s : VSState)
    (f : TeardownFaults) (h : s.isRecording = true) :
    (stopRecording s f).1 = clearedState
    ∧ countSignal Signal.recordingStopped (stopRecording s f).2.1 = 1 := by
  unfold stopRecording
  rw [h]
  rcases hr : (runTeardown (teardownCalls s f)).2 with _ | m <;>
    simp [hr, countSignal]

/-- C5 witness: a concrete active state whose track-stop release call
throws still ends cleared with one `recordingStopped`. -/
theorem C5_stop_witness :
    openState.isRecording = true
    ∧ (stopRecording openState ⟨none, some "track boom", none, none⟩).1 =
        clearedState
    ∧ countSignal Signal.recordingStopped
        (stopRecording openState ⟨none, some "track boom", none, none⟩).2.1 = 1 :=
  ⟨rfl,
    (C5_stop_active_resets_and_signals_once openState
      ⟨none, some "track boom", none, none⟩ rfl).1,
    (C5_stop_active_resets_and_signals_once openState
      ⟨none, some "track boom", none, none⟩ rfl).2⟩

/-- C9: `stop()` is idempotent.  While not recording it performs no
release step, emits nothing and leaves the state untouched; and
immediately after any `stop()` the flag is false, so a second `stop()`
is a no-op — two consecutive calls produce the side effects of a
single teardown. -/
theorem C9_stop_idempotent :
    (∀ (s : VSState) (f : TeardownFaults), s.isRecording = false →
      stopRecording s f = (s, [], []))
    ∧ ∀ (s : VSState) (f g : TeardownFaults),
      stopRecording (stopRecording s f).1 g = ((stopRecording s f).1, [], []) :=
  ⟨fun s f h => stopRecording_noop s f h,
   fun s f g => stopRecording_noop _ g (stopRecording_flag_false s f)⟩

/-- C9 witness: the idle no-op at the cleared state and the
second-call no-op after stopping a concrete active session. -/
theorem C9_stop_witness :
    clearedState.isRecording = false
    ∧ stopRecording clearedState noFaults = (clearedState, [], [])
    ∧ stopRecording (stopRecording openState noFaults).1 noFaults =
        ((stopRecording openState noFaults).1, [], []) :=
  ⟨rfl, C9_stop_idempotent.1 clearedState noFaults rfl,
   C9_stop_idempotent.2 openState noFaults noFaults⟩

/-- Inbound message used against C3: a just-created `function_call`
conversation item whose `parameters` field is the JSON-encoded string
"\x7b\"input\":\"hi\"\x7d" rather than a structured object. -/
def itemParamsString : InData :=
  ⟨some "conversation.item.created",
   some ⟨some "function_call", some "cid-3",
         some (JsParams.jstr "\x7b\"input\":\"hi\"\x7d"),
         some "generic_tool"⟩,
   none, none, none, none, none⟩

/-- C3 counterexample: on the conversation-item delivery path a
JSON-encoded-string parameter payload is dispatched to the tool
implementation as-is — the `Invocation` handed to
`_handleFunctionCall` carries the raw string, not a structured object,
and the resulting tool output interpolates `undefined` because the
string has no `input` property.  This refutes the claim that both
delivery shapes are normalized to a structured object before
dispatch. -/
theorem C3_counterexample_item_string_not_normalized :
    decodeFnCall itemParamsString =
      some (Except.ok ⟨some "generic_tool",
        JsParams.jstr "\x7b\"input\":\"hi\"\x7d", some "cid-3"⟩)
    ∧ (JsParams.jstr "\x7b\"input\":\"hi\"\x7d").isObj = false
    ∧ (onMessage openState (ChannelMessage.parsed itemParamsString)).2.1 =
        [OutEvent.conversationItemCreate (some "cid-3")
           [("success", OVal.obool true),
            ("result", OVal.ostr "You sent: undefined")],
         OutEvent.responseCreate] := by
  refine ⟨rfl, rfl, rfl⟩

/-- C3 amended: normalization is per delivery path.  Parameters that
arrive through the streamed-arguments-finalized event are the result of
`JSON.parse` on the `arguments` string, while parameters on a
just-created `function_call` conversation item are dispatched exactly
as they appear in `item.parameters` (a JSON-encoded string is passed
through unparsed). -/
theorem C3_amended_normalization_per_path :
    (∀ (d : InData) (v : JsParams),
      d.type = some "response.function_call_arguments.done" →
      d.arguments = some (ArgsField.jsOk v) →
      decodeFnCall d = some (Except.ok
        ⟨jsOrStr (d.item.bind InItem.name) d.name, v,
         jsOrStr (d.item.bind InItem.call_id) d.call_id⟩))
    ∧ ∀ (d : InData) (it : InItem),
      d.type = some "conversation.item.created" → d.item = some it →
      it.type = some "function_call" →
      decodeFnCall d = some (Except.ok
        ⟨jsOrStr it.name d.name, it.parameters.getD JsParams.jundef,
         jsOrStr it.call_id d.call_id⟩) := by
  constructor
  · intro d v h1 h2
    unfold decodeFnCall
    rw [h1, h2]
    simp
  · intro d it h1 h2 h3
    unfold decodeFnCall
    rw [h1, h2]
    simp [h3]

/-- C3 amended witness: both branches of the amended statement at
concrete messages. -/
theorem C3_amended_witness :
    decodeFnCall
        ⟨some "response.function_call_arguments.done", none, some "tool-w3",
         some (ArgsField.jsOk (JsParams.jobj [("input", "w3")])),
         some "id-w3", none, none⟩ =
      some (Except.ok ⟨some "tool-w3", JsParams.jobj [("input", "w3")],
        some "id-w3"⟩)
    ∧ decodeFnCall
        ⟨some "conversation.item.created",
         some ⟨some "function_call", some "id-w3b",
               some (JsParams.jobj [("input", "w3b")]), some "tool-w3b"⟩,
         none, none, none, none, none⟩ =
      some (Except.ok ⟨some "tool-w3b", JsParams.jobj [("input", "w3b")],
        some "id-w3b"⟩) :=
  ⟨C3_amended_normalization_per_path.1
      ⟨some "response.function_call_arguments.done", none, some "tool-w3",
       some (ArgsField.jsOk (JsParams.jobj [("input", "w3")])),
       some "id-w3", none, none⟩
      (JsParams.jobj [("input", "w3")]) rfl rfl,
   C3_amended_normalization_per_path.2
      ⟨some "conversation.item.created",
       some ⟨some "function_call", some "id-w3b",
             some (JsParams.jobj [("input", "w3b")]), some "tool-w3b"⟩,
       none, none, none, none, none⟩
      ⟨some "function_call", some "id-w3b",
       some (JsParams.jobj [("input", "w3b")]), some "tool-w3b"⟩ rfl rfl rfl⟩

/-- C4: on an open channel, every inbound message that decodes to a
tool invocation produces exactly one outbound tool-result event bearing
the invocation's correlation id, followed immediately by the
`response.create` trigger, and nothing else.  (A message is received on
the channel only while it is open, and the single-threaded handler runs
to completion, so the open hypothesis reflects every receipt; a message
whose argument payload cannot be parsed never becomes an invocation —
see C8.) -/
theorem C4_one_result_same_id_then_trigger (s : VSState) (d : InData)
    (inv : Invocation) (hopen : s.dataChannelOpen = true)
    (hdec : decodeFnCall d = some (Except.ok inv)) :
    (onMessage s (ChannelMessage.parsed d)).2.1 =
      [OutEvent.conversationItemCreate inv.call_id
         (dispatchPayload inv.name inv.params),
       OutEvent.responseCreate] := by
  simp [onMessage, hdec, handleFunctionCall_open s inv.name inv.params
    inv.call_id hopen]

/-- C4 witness: a concrete streamed-arguments invocation on the open
state yields its result event tagged "id-w4" and then the trigger. -/
theorem C4_witness :
    openState.dataChannelOpen = true
    ∧ decodeFnCall
        ⟨some "response.function_call_arguments.done", none,
         some "generic_tool",
         some (ArgsField.jsOk (JsParams.jobj [("input", "w4")])),
         some "id-w4", none, none⟩ =
      some (Except.ok ⟨some "generic_tool", JsParams.jobj [("input", "w4")],
        some "id-w4"⟩)
    ∧ (onMessage openState (ChannelMessage.parsed
        ⟨some "response.function_call_arguments.done", none,
         some "generic_tool",
         some (ArgsField.jsOk (JsParams.jobj [("input", "w4")])),
         some "id-w4", none, none⟩)).2.1 =
      [OutEvent.conversationItemCreate (some "id-w4")
         (dispatchPayload (some "generic_tool")
           (JsParams.jobj [("input", "w4")])),
       OutEvent.responseCreate] :=
  ⟨rfl, rfl,
   C4_one_result_same_id_then_trigger openState
     ⟨some "response.function_call_arguments.done", none, some "generic_tool",
      some (ArgsField.jsOk (JsParams.jobj [("input", "w4")])),
      some "id-w4", none, none⟩
     ⟨some "generic_tool", JsParams.jobj [("input", "w4")], some "id-w4"⟩
     rfl rfl⟩

/-- C6: on an open channel the dispatched envelope is flat
success/error.  A registered name (`generic_tool`, the only registry
entry) yields `success:true` merged with the tool's own result fields;
any other name yields `success:false` with error "Unknown tool"; in
both cases the result event is followed by exactly one
`response.create` trigger. -/
theorem C6_dispatch_envelope (s : VSState) (n : Option String)
    (p : JsParams) (cid : Option String) (hopen : s.dataChannelOpen = true) :
    (n = some "generic_tool" →
      handleFunctionCall s n p cid =
        (s, [OutEvent.conversationItemCreate cid
               (("success", OVal.obool true) :: genericToolOutput p),
             OutEvent.responseCreate], []))
    ∧ (n ≠ some "generic_tool" →
      handleFunctionCall s n p cid =
        (s, [OutEvent.conversationItemCreate cid
               [("success", OVal.obool false),
                ("error", OVal.ostr "Unknown tool")],
             OutEvent.responseCreate], [])) := by
  constructor <;> intro hn <;>
    simp [handleFunctionCall, dispatchPayload, sendFunctionOutput,
      sendEvent, hopen, hn]

/-- C6 witness: an unregistered tool name on the open state produces
the failure envelope followed by the trigger. -/
theorem C6_dispatch_witness :
    openState.dataChannelOpen = true
    ∧ (some "other_tool" : Option String) ≠ some "generic_tool"
    ∧ handleFunctionCall openState (some "other_tool") JsParams.jundef
        (some "cid-6") =
      (openState,
       [OutEvent.conversationItemCreate (some "cid-6")
          [("success", OVal.obool false), ("error", OVal.ostr "Unknown tool")],
        OutEvent.responseCreate], []) :=
  ⟨rfl, by decide,
   (C6_dispatch_envelope openState (some "other_tool") JsParams.jundef
     (some "cid-6") rfl).2 (by decide)⟩

/-- Inbound message of the C7 scenario: the
`response.function_call_arguments.done` event for `generic_tool` whose
`arguments` string "\x7b\"input\":\"hi\"\x7d" parses to the object with
`input` bound to "hi", with call id "abc". -/
def scenarioC7 : InData :=
  ⟨some "response.function_call_arguments.done", none, some "generic_tool",
   some (ArgsField.jsOk (JsParams.jobj [("input", "hi")])), some "abc",
   none, none⟩

/-- C7: the scenario message dispatches to `generic_tool` with the
structured parameters binding `input` to "hi", and on the open state
the handler sends the tool result `success:true`,
`result:"You sent: hi"` bearing call id "abc", followed by the
`response.create` trigger, with no signal emitted and no state
change. -/
theorem C7_generic_tool_scenario :
    decodeFnCall scenarioC7 =
      some (Except.ok ⟨some "generic_tool", JsParams.jobj [("input", "hi")],
        some "abc"⟩)
    ∧ onMessage openState (ChannelMessage.parsed scenarioC7) =
      (openState,
       [OutEvent.conversationItemCreate (some "abc")
          [("success", OVal.obool true),
           ("result", OVal.ostr "You sent: hi")],
        OutEvent.responseCreate], []) := by
  refine ⟨rfl, rfl⟩

/-- C8: every inbound message on which the handler body throws — the
outer `JSON.parse` failing, or a recognised invocation whose
`arguments` parse throws — is caught and surfaced as a single error
signal; the state is returned untouched (no teardown, flag unchanged)
and any subsequent message is processed exactly as it would have been
before. -/
theorem C8_throw_caught_session_intact (s : VSState) (m : ChannelMessage)
    (h : msgThrows m = true) :
    (∃ e, onMessage s m = (s, [], [Signal.error e]))
    ∧ ∀ m2, onMessage (onMessage s m).1 m2 = onMessage s m2 := by
  rcases m with e | d
  · exact ⟨⟨e, rfl⟩, fun m2 => rfl⟩
  · rcases hd : decodeFnCall d with _ | te
    · simp only [msgThrows, hd] at h
      exact Bool.noConfusion h
    · rcases te with e | inv
      · constructor
        · exact ⟨e, by simp [onMessage, hd]⟩
        · intro m2
          simp [onMessage, hd]
      · simp only [msgThrows, hd] at h
        exact Bool.noConfusion h

/-- C8 witness: an unparseable body on the open state emits one error
signal, leaves the state intact, and the C7 scenario message is then
processed exactly as before. -/
theorem C8_throw_witness :
    msgThrows (ChannelMessage.unparseable "Unexpected token o in JSON") = true
    ∧ (∃ e, onMessage openState
        (ChannelMessage.unparseable "Unexpected token o in JSON") =
        (openState, [], [Signal.error e]))
    ∧ onMessage (onMessage openState
        (ChannelMessage.unparseable "Unexpected token o in JSON")).1
        (ChannelMessage.parsed scenarioC7) =
      onMessage openState (ChannelMessage.parsed scenarioC7) :=
  ⟨rfl,
   (C8_throw_caught_session_intact openState
     (ChannelMessage.unparseable "Unexpected token o in JSON") rfl).1,
   (C8_throw_caught_session_intact openState
     (ChannelMessage.unparseable "Unexpected token o in JSON") rfl).2
     (ChannelMessage.parsed scenarioC7)⟩

/-- C10: when the channel's ready state is not open, `_sendEvent` — and
with it the session configuration, the tool-result message and the
response trigger — transmits nothing, emits no signal and leaves the
state unchanged. -/
theorem C10_closed_channel_discards (s : VSState) (e : OutEvent)
    (cid : Option String) (out : List (String × OVal))
    (h : s.dataChannelOpen = false) :
    sendEvent s e = (s, [], [])
    ∧ sendSessionUpdate s = (s, [], [])
    ∧ sendFunctionOutput s cid out = (s, [], []) := by
  refine ⟨?_, ?_, ?_⟩ <;>
    simp [sendEvent, sendSessionUpdate, sendFunctionOutput, h]

/-- C10 witness: on the cleared state (channel handle null, so its
ready state is not open) all three outbound message kinds are
discarded. -/
theorem C10_closed_channel_witness :
    clearedState.dataChannelOpen = false
    ∧ sendEvent clearedState OutEvent.responseCreate = (clearedState, [], [])
    ∧ sendSessionUpdate clearedState = (clearedState, [], [])
    ∧ sendFunctionOutput clearedState (some "cid-10")
        [("success", OVal.obool true)] = (clearedState, [], []) :=
  ⟨rfl,
   (C10_closed_channel_discards clearedState OutEvent.responseCreate
     (some "cid-10") [("success", OVal.obool true)] rfl).1,
   (C10_closed_channel_discards clearedState OutEvent.responseCreate
     (some "cid-10") [("success", OVal.obool true)] rfl).2.1,
   (C10_closed_channel_discards clearedState OutEvent.responseCreate
     (some "cid-10") [("success", OVal.obool true)] rfl).2.2⟩
